import Mathlib

/-!
Shallow embedding of the nvhost channel submission path of
`drivers/video/tegra/host/bus_client.c` (Tegra Graphics Host client module).

The embedded code covers the per-channel user context, the submission
header bookkeeping (`set_submit`, `reset_submit`), the streaming record
assembler (`nvhost_channelwrite`), the flush sequencer
(`nvhost_ioctl_channel_flush`) and the `NVHOST_IOCTL_CHANNEL_SUBMIT_EXT`
case of `nvhost_channelctl`.

External collaborators (nvmap, job allocation, pinning, the device
submission call) and the wire-format C structs declared in headers that
are not part of this repository are modelled from the spec; each such
definition carries a doc comment saying so.  Machine integers are
modelled as `Nat` (the counters are `u32`/`int` values that the code only
decrements when nonzero) and error returns as negative `Int` codes, as in
the C `ssize_t`/`int` convention.
-/

/-- Linux error number EIO (5); the code returns `-EIO`. -/
def eio : Int := 5

/-- Linux error number EFAULT (14); the code returns `-EFAULT`. -/
def efault : Int := 14

/-- Linux error number ENOMEM (12); the code returns `-ENOMEM`. -/
def enomem : Int := 12

/-- Linux error number EINVAL (22); the code returns `-EINVAL`. -/
def einval : Int := 22

/-- Modelled from the spec: submit version v0 (legacy header form, no
reloc-shift phase).  The constant lives in `nvhost_ioctl.h`, which is not
part of this repository. -/
def NVHOST_SUBMIT_VERSION_V0 : Nat := 0

/-- Modelled from the spec: submit version v2, the first version with the
reloc-shift phase. -/
def NVHOST_SUBMIT_VERSION_V2 : Nat := 2

/-- Modelled from the spec: "a maximum supported version constant gates
acceptance"; v2 is the newest supported version. -/
def NVHOST_SUBMIT_VERSION_MAX_SUPPORTED : Nat := NVHOST_SUBMIT_VERSION_V2

/-- Modelled from the spec: one command-buffer wire record
{buffer-reference, word-count, byte-offset} (`struct nvhost_cmdbuf`,
declared in a header not in this repository). -/
structure nvhost_cmdbuf where
  mem : Nat
  words : Nat
  offset : Nat
deriving DecidableEq, Repr

/-- Modelled from the spec: one relocation wire record
{buffer-reference, relocation-target-offset} (`struct nvhost_reloc`). -/
structure nvhost_reloc where
  mem : Nat
  target_offset : Nat
deriving DecidableEq, Repr

/-- Modelled from the spec: one wait-check wire record
{syncpoint-id, threshold-value} (`struct nvhost_waitchk`). -/
structure nvhost_waitchk where
  syncpt_id : Nat
  thresh : Nat
deriving DecidableEq, Repr

/-- Modelled from the spec: the legacy submit header (`struct
nvhost_submit_hdr`): syncpoint range plus the declared record counts and
the wait-check mask, without a version field. -/
structure nvhost_submit_hdr where
  syncpt_id : Nat
  syncpt_incrs : Nat
  num_cmdbufs : Nat
  num_relocs : Nat
  num_waitchks : Nat
  waitchk_mask : Nat
deriving DecidableEq, Repr

/-- Modelled from the spec: the extended submit header (`struct
nvhost_submit_hdr_ext`): the legacy fields plus an explicit
`submit_version`. -/
structure nvhost_submit_hdr_ext where
  syncpt_id : Nat
  syncpt_incrs : Nat
  num_cmdbufs : Nat
  num_relocs : Nat
  num_waitchks : Nat
  waitchk_mask : Nat
  submit_version : Nat
deriving DecidableEq, Repr

/-- Modelled from the spec: wire size in bytes of the legacy submit
header (`sizeof(struct nvhost_submit_hdr)`, six 32-bit words). -/
def sizeof_nvhost_submit_hdr : Nat := 24

/-- Modelled from the spec: wire size in bytes of a cmdbuf record. -/
def sizeof_nvhost_cmdbuf : Nat := 12

/-- Modelled from the spec: wire size in bytes of a reloc record. -/
def sizeof_nvhost_reloc : Nat := 16

/-- Modelled from the spec: wire size in bytes of a waitchk record. -/
def sizeof_nvhost_waitchk : Nat := 16

/-- Modelled from the spec: wire size in bytes of a reloc-shift record
(`struct nvhost_reloc_shift`, one 32-bit word). -/
def sizeof_nvhost_reloc_shift : Nat := 4

/-- One entry of the job's pin array: the relocation data copied in during
the relocation phase plus the `reloc_shift` field filled in during the
reloc-shift phase (the element type of `job->pinarray`). -/
structure PinEntry where
  reloc : nvhost_reloc
  reloc_shift : Nat
deriving DecidableEq, Repr

/-- The all-zero pin-array entry (fresh storage). -/
def pinEntry0 : PinEntry := { reloc := { mem := 0, target_offset := 0 }, reloc_shift := 0 }

/-- The Job Descriptor (`struct nvhost_job`), as used by this file:
gathers, the pin array with its running count, the wait-check array with
its running count, and the per-job metadata the embedded code touches.
The pin array is modelled as a total map `Nat → PinEntry` (a C array
written by index), with `num_pins` counting the filled prefix. -/
structure nvhost_job where
  gathers : List nvhost_cmdbuf
  pinarray : Nat → PinEntry
  num_pins : Nat
  waitchk : List nvhost_waitchk
  num_waitchk : Nat
  timeout : Nat
  priority : Nat
  clientid : Nat
  null_kickoff : Bool
  syncpt_end : Nat

/-- The per-channel user context (`struct nvhost_channel_userctx`),
restricted to the fields the submission path reads or writes: the stored
extended header, the reloc-shift remaining counter, the job (nullable),
whether an nvmap client has been set, and the scalar metadata. -/
structure nvhost_channel_userctx where
  hdr : nvhost_submit_hdr_ext
  num_relocshifts : Nat
  job : Option nvhost_job
  nvmap : Bool
  timeout : Nat
  priority : Nat
  clientid : Nat

/-- The four "remaining" counters of the submission state are all zero:
the channel has no submission in progress. -/
def noSubmitInProgress (ctx : nvhost_channel_userctx) : Prop :=
  ctx.hdr.num_cmdbufs = 0 ∧ ctx.hdr.num_relocs = 0 ∧
  ctx.hdr.num_waitchks = 0 ∧ ctx.num_relocshifts = 0

instance (ctx : nvhost_channel_userctx) : Decidable (noSubmitInProgress ctx) := by
  unfold noSubmitInProgress; infer_instance

/-- Modelled from the spec: `nvhost_job_realloc` (defined outside this
repository) re-sizes the channel's job to the new header's declared
counts: the gather/pin/waitchk sequences are reset to empty and the
metadata is taken from the channel context.  Allocation failure is
modelled by the caller's `reallocOk` flag. -/
def nvhost_job_realloc (ctx : nvhost_channel_userctx) : nvhost_job :=
  { gathers := []
    pinarray := fun _ => pinEntry0
    num_pins := 0
    waitchk := []
    num_waitchk := 0
    timeout := 0
    priority := ctx.priority
    clientid := ctx.clientid
    null_kickoff := false
    syncpt_end := 0 }

/-- Modelled from the spec: `nvhost_job_add_gather` appends one gather
{reference, words, offset} to the job. -/
def nvhost_job_add_gather (j : nvhost_job) (mem words offset : Nat) : nvhost_job :=
  { j with gathers := j.gathers ++ [{ mem := mem, words := words, offset := offset }] }

/-- `set_submit` (bus_client.c lines 190-217): requires at least one
cmdbuf (`-EIO`), a previously set nvmap client (`-EFAULT`), reallocates
the job to the header's declared counts (`-ENOMEM` on failure, with
`ctx->job` left NULL), copies the channel timeout into the job, and for
submit version ≥ v2 seeds the reloc-shift remaining counter from the
header's relocation count.  `reallocOk` stands for the external
allocator succeeding. -/
def set_submit (reallocOk : Bool) (ctx : nvhost_channel_userctx) :
    Int × nvhost_channel_userctx :=
  if ctx.hdr.num_cmdbufs = 0 then (-eio, ctx)
  else if ctx.nvmap = false then (-efault, ctx)
  else if reallocOk = false then (-enomem, { ctx with job := none })
  else
    let j := { nvhost_job_realloc ctx with timeout := ctx.timeout }
    let ctx1 := { ctx with job := some j }
    if NVHOST_SUBMIT_VERSION_V2 ≤ ctx1.hdr.submit_version then
      (0, { ctx1 with num_relocshifts := ctx1.hdr.num_relocs })
    else (0, ctx1)

/-- `reset_submit` (bus_client.c lines 219-225): zeroes the four
remaining counters (num_cmdbufs, num_relocs, num_relocshifts,
num_waitchks). -/
def reset_submit (ctx : nvhost_channel_userctx) : nvhost_channel_userctx :=
  { ctx with
      hdr := { ctx.hdr with num_cmdbufs := 0, num_relocs := 0, num_waitchks := 0 }
      num_relocshifts := 0 }

/-- The `NVHOST_IOCTL_CHANNEL_SUBMIT_EXT` case of `nvhost_channelctl`
(bus_client.c lines 414-446): rejects with `-EIO` and resets the counters
if any of the four remaining counters is nonzero ("channel submit out of
sync"); rejects with `-EINVAL` if the new header's version exceeds the
maximum supported; otherwise stores the new header into the context and
runs `set_submit`. -/
def nvhost_channelctl_submit_ext (reallocOk : Bool)
    (ctx : nvhost_channel_userctx) (hdr : nvhost_submit_hdr_ext) :
    Int × nvhost_channel_userctx :=
  if ctx.hdr.num_relocs ≠ 0 ∨ ctx.num_relocshifts ≠ 0 ∨
     ctx.hdr.num_cmdbufs ≠ 0 ∨ ctx.hdr.num_waitchks ≠ 0 then
    (-eio, reset_submit ctx)
  else if NVHOST_SUBMIT_VERSION_MAX_SUPPORTED < hdr.submit_version then
    (-einval, ctx)
  else
    set_submit reallocOk { ctx with hdr := hdr }

/-- Environment of one flush call: the results of the external
collaborators (`nvhost_job_pin`, `nvhost_channel_submit`) and the ambient
debug hooks.  `submit_syncpt_end` is the syncpoint-end value the
submission collaborator records into the job on success (modelled from
the spec: "on success, record the returned syncpoint-end in the Job
Descriptor"). -/
structure FlushEnv where
  pin_err : Int
  submit_err : Int
  submit_syncpt_end : Nat
  debug_null_kickoff : Bool
  debug_force_timeout : Bool
  debug_force_timeout_val : Nat

/-- Outcome of one flush call: the returned error code, the channel state
afterwards, the value stored into `args->value` (`none` if the guard
failed before reaching it), and whether the pin / submit / unpin
collaborators were invoked. -/
structure FlushResult where
  err : Int
  ctx : nvhost_channel_userctx
  value : Option Nat
  pin_called : Bool
  submit_called : Bool
  unpin_called : Bool

/-- `nvhost_ioctl_channel_flush` (bus_client.c lines 334-377): fails with
`-EFAULT` (resetting the counters) unless a job exists and
`num_relocs`, `num_cmdbufs` and `num_waitchks` are all zero; then pins
(propagating a pin failure unchanged), applies the debug overrides
(forced null kickoff; forced channel timeout written into the context),
submits, stores `ctx->job->syncpt_end` into `args->value`, and unpins on
submission failure. -/
def nvhost_ioctl_channel_flush (env : FlushEnv) (ctx : nvhost_channel_userctx)
    (null_kickoff : Bool) : FlushResult :=
  if ctx.job.isNone ∨ ctx.hdr.num_relocs ≠ 0 ∨
     ctx.hdr.num_cmdbufs ≠ 0 ∨ ctx.hdr.num_waitchks ≠ 0 then
    { err := -efault, ctx := reset_submit ctx, value := none
      pin_called := false, submit_called := false, unpin_called := false }
  else
    match ctx.job with
    | none =>
      { err := -efault, ctx := reset_submit ctx, value := none
        pin_called := false, submit_called := false, unpin_called := false }
    | some job =>
      if env.pin_err ≠ 0 then
        { err := env.pin_err, ctx := ctx, value := none
          pin_called := true, submit_called := false, unpin_called := false }
      else
        let nk := if env.debug_null_kickoff then true else null_kickoff
        let job1 := { job with null_kickoff := nk }
        let ctx1 := if env.debug_force_timeout then
                      { ctx with timeout := env.debug_force_timeout_val }
                    else ctx
        let job2 := if env.submit_err = 0 then
                      { job1 with syncpt_end := env.submit_syncpt_end }
                    else job1
        { err := env.submit_err
          ctx := { ctx1 with job := some job2 }
          value := some job2.syncpt_end
          pin_called := true
          submit_called := true
          unpin_called := decide (env.submit_err ≠ 0) }

/-- The kind of record the streaming assembler handles in one loop
iteration (one branch of the if/else-if chain in `nvhost_channelwrite`);
`stuck` is the final `else` branch of the chain. -/
inductive RecKind where
  | header
  | cmdbuf
  | reloc
  | waitchk
  | relocShift
  | stuck
deriving DecidableEq, Repr

/-- The branch-selection chain of the `nvhost_channelwrite` loop
(bus_client.c lines 242-317), verbatim: the header branch requires
`!hdr->num_relocs && !priv->num_relocshifts && !hdr->num_cmdbufs &&
!hdr->num_waitchks`; then `hdr->num_cmdbufs`, `hdr->num_relocs`,
`hdr->num_waitchks`, `priv->num_relocshifts`, and the final `else`. -/
def selectKind (hdr : nvhost_submit_hdr_ext) (num_relocshifts : Nat) : RecKind :=
  if hdr.num_relocs = 0 ∧ num_relocshifts = 0 ∧
     hdr.num_cmdbufs = 0 ∧ hdr.num_waitchks = 0 then RecKind.header
  else if hdr.num_cmdbufs ≠ 0 then RecKind.cmdbuf
  else if hdr.num_relocs ≠ 0 then RecKind.reloc
  else if hdr.num_waitchks ≠ 0 then RecKind.waitchk
  else if num_relocshifts ≠ 0 then RecKind.relocShift
  else RecKind.stuck

/-- The expected-kind resolution order exactly as the spec words it: "no
counters nonzero → parse a header; else cmdbufs remaining → one cmdbuf
record; else relocs remaining → one reloc record; else waitchks remaining
→ a batch of waitchk records; else reloc-shifts remaining → one
reloc-shift record". -/
def specExpectedKind (hdr : nvhost_submit_hdr_ext) (num_relocshifts : Nat) : RecKind :=
  if hdr.num_cmdbufs = 0 ∧ hdr.num_relocs = 0 ∧
     hdr.num_waitchks = 0 ∧ num_relocshifts = 0 then RecKind.header
  else if hdr.num_cmdbufs ≠ 0 then RecKind.cmdbuf
  else if hdr.num_relocs ≠ 0 then RecKind.reloc
  else if hdr.num_waitchks ≠ 0 then RecKind.waitchk
  else RecKind.relocShift

/-- Wire size in bytes of one whole record of each kind (the `consumed`
value each branch of the loop sets before its availability check). -/
def recordSize : RecKind → Nat
  | RecKind.header => sizeof_nvhost_submit_hdr
  | RecKind.cmdbuf => sizeof_nvhost_cmdbuf
  | RecKind.reloc => sizeof_nvhost_reloc
  | RecKind.waitchk => sizeof_nvhost_waitchk
  | RecKind.relocShift => sizeof_nvhost_reloc_shift
  | RecKind.stuck => 0

/-- The caller-supplied byte source of one write call, as the embedded
code observes it through `copy_from_user`: reading a record of a given
kind at a given byte offset either yields the decoded record or faults
(`none`, the nonzero return of `copy_from_user`).  `reallocOk` stands for
the external job allocator succeeding inside `set_submit`. -/
structure WriteEnv where
  hdrAt : Nat → Option nvhost_submit_hdr
  cmdbufAt : Nat → Option nvhost_cmdbuf
  relocAt : Nat → Option nvhost_reloc
  waitchkAt : Nat → Option nvhost_waitchk
  shiftAt : Nat → Option Nat
  reallocOk : Bool

/-- Reading `n` consecutive waitchk records starting at byte offset
`off`: the single `copy_from_user` of `n * sizeof(struct nvhost_waitchk)`
bytes faults if any record of the range faults. -/
def readWaitchks (env : WriteEnv) (off : Nat) : Nat → Option (List nvhost_waitchk)
  | 0 => some []
  | Nat.succ n =>
    match env.waitchkAt off, readWaitchks env (off + sizeof_nvhost_waitchk) n with
    | some w, some ws => some (w :: ws)
    | _, _ => none

/-- Overwriting the stored extended header with a legacy header read from
the wire (`copy_from_user(hdr, buf, sizeof(struct nvhost_submit_hdr))`
followed by `hdr->submit_version = NVHOST_SUBMIT_VERSION_V0`): the legacy
fields are replaced, the version is forced to v0. -/
def overlay_hdr (old : nvhost_submit_hdr_ext) (h : nvhost_submit_hdr) :
    nvhost_submit_hdr_ext :=
  { old with
      syncpt_id := h.syncpt_id
      syncpt_incrs := h.syncpt_incrs
      num_cmdbufs := h.num_cmdbufs
      num_relocs := h.num_relocs
      num_waitchks := h.num_waitchks
      waitchk_mask := h.waitchk_mask
      submit_version := NVHOST_SUBMIT_VERSION_V0 }

/-- The `while (remaining)` loop of `nvhost_channelwrite` (bus_client.c
lines 240-323).  State: channel context, bytes still unconsumed, and the
loop's `err` (third component; `0` until an error breaks the loop).  The
byte cursor (`buf` in C) is `count - remaining`.  The loop is embedded
with explicit fuel; since every iteration that does not exit consumes at
least `sizeof_nvhost_reloc_shift = 4 > 0` bytes, `fuel = count`
(as passed by `nvhost_channelwrite`) can never be exhausted before the C
loop exits, so the fuelled function agrees with the C loop there.  The
`none` cases of the `ctx.job` matches model a C null-pointer dereference
that is unreachable from `nvhost_channelwrite` (which returns `-EIO` when
no job exists, and breaks out of the loop when `set_submit` fails). -/
def writeLoop (env : WriteEnv) (count : Nat) :
    Nat → nvhost_channel_userctx → Nat → nvhost_channel_userctx × Nat × Int
  | 0, ctx, remaining => (ctx, remaining, 0)
  | Nat.succ fuel, ctx, remaining =>
    if remaining = 0 then (ctx, remaining, 0)
    else
      match selectKind ctx.hdr ctx.num_relocshifts with
      | RecKind.header =>
        if remaining < sizeof_nvhost_submit_hdr then (ctx, remaining, 0)
        else
          match env.hdrAt (count - remaining) with
          | none => (ctx, remaining, -efault)
          | some h =>
            let ctx1 := { ctx with hdr := overlay_hdr ctx.hdr h }
            match set_submit env.reallocOk ctx1 with
            | (e, ctx2) =>
              if e ≠ 0 then (ctx2, remaining, e)
              else writeLoop env count fuel ctx2 (remaining - sizeof_nvhost_submit_hdr)
      | RecKind.cmdbuf =>
        if remaining < sizeof_nvhost_cmdbuf then (ctx, remaining, 0)
        else
          match env.cmdbufAt (count - remaining) with
          | none => (ctx, remaining, -efault)
          | some cb =>
            match ctx.job with
            | none => (ctx, remaining, -efault)
            | some j =>
              let j1 := nvhost_job_add_gather j cb.mem cb.words cb.offset
              let ctx1 := { ctx with
                job := some j1
                hdr := { ctx.hdr with num_cmdbufs := ctx.hdr.num_cmdbufs - 1 } }
              writeLoop env count fuel ctx1 (remaining - sizeof_nvhost_cmdbuf)
      | RecKind.reloc =>
        if remaining < sizeof_nvhost_reloc then (ctx, remaining, 0)
        else
          match env.relocAt (count - remaining) with
          | none => (ctx, remaining, -efault)
          | some r =>
            match ctx.job with
            | none => (ctx, remaining, -efault)
            | some j =>
              let j1 := { j with
                pinarray := Function.update j.pinarray j.num_pins
                  { j.pinarray j.num_pins with reloc := r }
                num_pins := j.num_pins + 1 }
              let ctx1 := { ctx with
                job := some j1
                hdr := { ctx.hdr with num_relocs := ctx.hdr.num_relocs - 1 } }
              writeLoop env count fuel ctx1 (remaining - sizeof_nvhost_reloc)
      | RecKind.waitchk =>
        let numwaitchks := remaining / sizeof_nvhost_waitchk
        if numwaitchks = 0 then (ctx, remaining, 0)
        else
          let n := min numwaitchks ctx.hdr.num_waitchks
          match readWaitchks env (count - remaining) n with
          | none => (ctx, remaining, -efault)
          | some ws =>
            match ctx.job with
            | none => (ctx, remaining, -efault)
            | some j =>
              let j1 := { j with
                waitchk := j.waitchk ++ ws
                num_waitchk := j.num_waitchk + n }
              let ctx1 := { ctx with
                job := some j1
                hdr := { ctx.hdr with num_waitchks := ctx.hdr.num_waitchks - n } }
              writeLoop env count fuel ctx1 (remaining - n * sizeof_nvhost_waitchk)
      | RecKind.relocShift =>
        if remaining < sizeof_nvhost_reloc_shift then (ctx, remaining, 0)
        else
          match env.shiftAt (count - remaining) with
          | none => (ctx, remaining, -efault)
          | some v =>
            match ctx.job with
            | none => (ctx, remaining, -efault)
            | some j =>
              let next_shift := j.num_pins - ctx.num_relocshifts
              let j1 := { j with
                pinarray := Function.update j.pinarray next_shift
                  { j.pinarray next_shift with reloc_shift := v } }
              let ctx1 := { ctx with
                job := some j1
                num_relocshifts := ctx.num_relocshifts - 1 }
              writeLoop env count fuel ctx1 (remaining - sizeof_nvhost_reloc_shift)
      | RecKind.stuck => (ctx, remaining, -efault)

/-- `nvhost_channelwrite` (bus_client.c lines 227-332): `-EIO` when the
channel has no job; otherwise runs the streaming loop over the `count`
supplied bytes; on a loop error resets the submission counters and
returns the error, otherwise returns the number of bytes consumed
(`count - remaining`). -/
def nvhost_channelwrite (env : WriteEnv) (count : Nat)
    (ctx : nvhost_channel_userctx) : Int × nvhost_channel_userctx :=
  match ctx.job with
  | none => (-eio, ctx)
  | some _ =>
    match writeLoop env count count ctx count with
    | (ctx1, remaining1, e) =>
      if e < 0 then (e, reset_submit ctx1)
      else ((count : Int) - (remaining1 : Int), ctx1)

/-! ### Concrete fixtures used by witnesses and counterexamples -/

/-- A fresh, empty job (what `nvhost_job_alloc` produces at channel
open). -/
def sampleJob : nvhost_job :=
  { gathers := []
    pinarray := fun _ => pinEntry0
    num_pins := 0
    waitchk := []
    num_waitchk := 0
    timeout := 0
    priority := 0
    clientid := 0
    null_kickoff := false
    syncpt_end := 0 }

/-- A channel context with no submission in progress, a job, and an nvmap
client set. -/
def cleanCtx : nvhost_channel_userctx :=
  { hdr := { syncpt_id := 0, syncpt_incrs := 0, num_cmdbufs := 0, num_relocs := 0
             num_waitchks := 0, waitchk_mask := 0, submit_version := 0 }
    num_relocshifts := 0
    job := some sampleJob
    nvmap := true
    timeout := 0
    priority := 0
    clientid := 0 }

/-- A flush environment in which both collaborators succeed and no debug
hook is active. -/
def okFlushEnv : FlushEnv :=
  { pin_err := 0, submit_err := 0, submit_syncpt_end := 7
    debug_null_kickoff := false, debug_force_timeout := false
    debug_force_timeout_val := 0 }

/-- A write environment in which every read succeeds with fixed records
and the allocator succeeds. -/
def okWriteEnv : WriteEnv :=
  { hdrAt := fun _ => some { syncpt_id := 1, syncpt_incrs := 1, num_cmdbufs := 1
                             num_relocs := 0, num_waitchks := 0, waitchk_mask := 0 }
    cmdbufAt := fun _ => some { mem := 3, words := 4, offset := 5 }
    relocAt := fun _ => some { mem := 6, target_offset := 8 }
    waitchkAt := fun _ => some { syncpt_id := 9, thresh := 10 }
    shiftAt := fun _ => some 11
    reallocOk := true }

/-- A write environment in which every read faults. -/
def faultWriteEnv : WriteEnv :=
  { hdrAt := fun _ => none
    cmdbufAt := fun _ => none
    relocAt := fun _ => none
    waitchkAt := fun _ => none
    shiftAt := fun _ => none
    reallocOk := true }

/-! ### Helper lemmas -/

/-- `reset_submit` leaves the channel with no submission in progress. -/
theorem reset_submit_clears (ctx : nvhost_channel_userctx) :
    noSubmitInProgress (reset_submit ctx) := by
  constructor <;> simp [reset_submit, noSubmitInProgress]

/-- A successful batched read yields exactly the requested number of
records. -/
theorem readWaitchks_length (env : WriteEnv) :
    ∀ (n off : Nat) (ws : List nvhost_waitchk),
      readWaitchks env off n = some ws → ws.length = n := by
  intro n
  induction n with
  | zero =>
    intro off ws h
    simp [readWaitchks] at h
    simp [← h]
  | succ n ih =>
    intro off ws h
    unfold readWaitchks at h
    cases hw : env.waitchkAt off with
    | none => rw [hw] at h; simp at h
    | some w =>
      rw [hw] at h
      cases hrest : readWaitchks env (off + sizeof_nvhost_waitchk) n with
      | none => rw [hrest] at h; simp at h
      | some ws1 =>
        rw [hrest] at h
        simp at h
        have := ih (off + sizeof_nvhost_waitchk) ws1 hrest
        simp [← h, this]

/-! ### Claims -/

/-- C4: in every loop iteration of the streaming assembler, the branch
taken (`selectKind`, the if/else-if chain of `nvhost_channelwrite`)
selects the record kind given by the spec's fixed priority order (no
counters nonzero → header; else cmdbufs → one cmdbuf; else relocs → one
reloc; else waitchks → a batch of waitchks; else reloc-shifts → one
reloc-shift), and the chain never falls through to its dead final `else`:
record bytes of a later kind supplied while an earlier kind is
outstanding are consumed as the earlier kind, never reordered. -/
theorem c4_record_order :
    (∀ (hdr : nvhost_submit_hdr_ext) (nrs : Nat),
       selectKind hdr nrs = specExpectedKind hdr nrs) ∧
    (∀ (hdr : nvhost_submit_hdr_ext) (nrs : Nat),
       selectKind hdr nrs ≠ RecKind.stuck) := by
  have key : ∀ (hdr : nvhost_submit_hdr_ext) (nrs : Nat),
      selectKind hdr nrs = specExpectedKind hdr nrs := by
    intro hdr nrs
    unfold selectKind specExpectedKind
    split_ifs <;> first | rfl | omega
  refine ⟨key, ?_⟩
  intro hdr nrs
  rw [key]
  unfold specExpectedKind
  split_ifs <;> simp

/-- A channel context whose only nonzero remaining counter is the
reloc-shift counter. -/
def shiftOnlyCtx : nvhost_channel_userctx := { cleanCtx with num_relocshifts := 1 }

/-- A channel context with a pending cmdbuf count (submission in
progress). -/
def dirtyCtx : nvhost_channel_userctx :=
  { cleanCtx with hdr := { cleanCtx.hdr with num_cmdbufs := 1 } }

/-- A channel context with no job. -/
def noJobCtx : nvhost_channel_userctx := { cleanCtx with job := none }

/-- An extended header declaring one cmdbuf with an unsupported
version. -/
def bigVersionHdr : nvhost_submit_hdr_ext :=
  { cleanCtx.hdr with submit_version := 3, num_cmdbufs := 1 }

/-- C1 counterexample: a state with a job, the cmdbuf/reloc/waitchk
counters zero but one reloc-shift outstanding.  The claim says flush must
fail with ProtocolError without invoking the submission collaborator;
the code's guard does not test `num_relocshifts`, so the flush proceeds
and succeeds. -/
theorem c1_flush_counterexample :
    shiftOnlyCtx.num_relocshifts ≠ 0 ∧
    (nvhost_ioctl_channel_flush okFlushEnv shiftOnlyCtx false).err = 0 ∧
    (nvhost_ioctl_channel_flush okFlushEnv shiftOnlyCtx false).submit_called = true := by
  refine ⟨by decide, ?_, ?_⟩ <;> rfl

/-- C1 (amended): a flush fails with `-EFAULT`, without invoking the pin
or device-submission collaborators and with all four remaining counters
reset to zero, precisely when no job exists or one of the three counters
num-cmdbufs, num-relocs, num-waitchks is nonzero; the reloc-shift
counter is not part of the guard, so when those conditions hold the
flush proceeds (the pin collaborator is invoked) even with reloc-shifts
outstanding. -/
theorem c1_flush_guard (env : FlushEnv) (ctx : nvhost_channel_userctx) (nk : Bool) :
    ((ctx.job = none ∨ ctx.hdr.num_relocs ≠ 0 ∨ ctx.hdr.num_cmdbufs ≠ 0 ∨
      ctx.hdr.num_waitchks ≠ 0) →
      (nvhost_ioctl_channel_flush env ctx nk).err = -efault ∧
      (nvhost_ioctl_channel_flush env ctx nk).pin_called = false ∧
      (nvhost_ioctl_channel_flush env ctx nk).submit_called = false ∧
      noSubmitInProgress (nvhost_ioctl_channel_flush env ctx nk).ctx) ∧
    (∀ j : nvhost_job, ctx.job = some j → ctx.hdr.num_relocs = 0 →
      ctx.hdr.num_cmdbufs = 0 → ctx.hdr.num_waitchks = 0 →
      (nvhost_ioctl_channel_flush env ctx nk).pin_called = true) := by
  constructor
  · intro h
    have hguard : ctx.job.isNone = true ∨ ctx.hdr.num_relocs ≠ 0 ∨
        ctx.hdr.num_cmdbufs ≠ 0 ∨ ctx.hdr.num_waitchks ≠ 0 := by
      rcases h with h | h | h | h
      · exact Or.inl (by simp [h])
      · exact Or.inr (Or.inl h)
      · exact Or.inr (Or.inr (Or.inl h))
      · exact Or.inr (Or.inr (Or.inr h))
    unfold nvhost_ioctl_channel_flush
    rw [if_pos hguard]
    exact ⟨rfl, rfl, rfl, reset_submit_clears ctx⟩
  · intro j hj hr hc hw
    have hguard : ¬(ctx.job.isNone = true ∨ ctx.hdr.num_relocs ≠ 0 ∨
        ctx.hdr.num_cmdbufs ≠ 0 ∨ ctx.hdr.num_waitchks ≠ 0) := by
      simp [hj, hr, hc, hw]
    unfold nvhost_ioctl_channel_flush
    rw [if_neg hguard, hj]
    by_cases hp : env.pin_err = 0 <;> simp [hp]

/-- Witness for C1 (amended), at a context with no job: the flush fails
with `-EFAULT`, invokes neither collaborator, and resets the counters. -/
theorem c1_flush_guard_witness :
    (nvhost_ioctl_channel_flush okFlushEnv noJobCtx false).err = -efault ∧
    (nvhost_ioctl_channel_flush okFlushEnv noJobCtx false).pin_called = false ∧
    (nvhost_ioctl_channel_flush okFlushEnv noJobCtx false).submit_called = false ∧
    noSubmitInProgress (nvhost_ioctl_channel_flush okFlushEnv noJobCtx false).ctx :=
  (c1_flush_guard okFlushEnv noJobCtx false).1 (Or.inl rfl)

/-- C2: submitting a new extended header while any of the four remaining
counters is nonzero fails with `-EIO` ("channel submit out of sync"), the
new header is not stored (the state is exactly the old one with the
counters reset by `reset_submit`), and afterwards all four remaining
counters are zero. -/
theorem c2_submit_ext_out_of_sync (reallocOk : Bool)
    (ctx : nvhost_channel_userctx) (hdr : nvhost_submit_hdr_ext)
    (h : ctx.hdr.num_cmdbufs ≠ 0 ∨ ctx.hdr.num_relocs ≠ 0 ∨
         ctx.hdr.num_waitchks ≠ 0 ∨ ctx.num_relocshifts ≠ 0) :
    nvhost_channelctl_submit_ext reallocOk ctx hdr = (-eio, reset_submit ctx) ∧
    noSubmitInProgress (nvhost_channelctl_submit_ext reallocOk ctx hdr).2 := by
  have hcond : ctx.hdr.num_relocs ≠ 0 ∨ ctx.num_relocshifts ≠ 0 ∨
      ctx.hdr.num_cmdbufs ≠ 0 ∨ ctx.hdr.num_waitchks ≠ 0 := by tauto
  unfold nvhost_channelctl_submit_ext
  rw [if_pos hcond]
  exact ⟨rfl, reset_submit_clears ctx⟩

/-- Witness for C2, at a context with one outstanding cmdbuf. -/
theorem c2_submit_ext_out_of_sync_witness :
    nvhost_channelctl_submit_ext true dirtyCtx bigVersionHdr =
      (-eio, reset_submit dirtyCtx) ∧
    noSubmitInProgress (nvhost_channelctl_submit_ext true dirtyCtx bigVersionHdr).2 :=
  c2_submit_ext_out_of_sync true dirtyCtx bigVersionHdr (Or.inl (by decide))

/-- C3 counterexample: from a state with one outstanding cmdbuf, a
header whose version (3) exceeds the maximum supported (2) is rejected
with `-EIO` — not `-EINVAL` (`UnsupportedVersion`) — and the in-progress
submission state is mutated (the counters are reset): the out-of-sync
check precedes the version check. -/
theorem c3_version_counterexample :
    NVHOST_SUBMIT_VERSION_MAX_SUPPORTED < bigVersionHdr.submit_version ∧
    dirtyCtx.hdr.num_cmdbufs = 1 ∧
    (nvhost_channelctl_submit_ext true dirtyCtx bigVersionHdr).1 ≠ -einval ∧
    (nvhost_channelctl_submit_ext true dirtyCtx bigVersionHdr).2.hdr.num_cmdbufs ≠
      dirtyCtx.hdr.num_cmdbufs := by
  refine ⟨by decide, by decide, by decide, by decide⟩

/-- C3 (amended): when the channel is in sync (all four remaining
counters zero), an extended header whose version exceeds the maximum
supported is rejected with `-EINVAL` (`UnsupportedVersion`) and the
channel state — stored header, counters, job — is completely
unchanged; from an out-of-sync state the `-EIO` out-of-sync rejection
(which resets the counters) takes precedence. -/
theorem c3_version_rejected (reallocOk : Bool) (ctx : nvhost_channel_userctx)
    (hdr : nvhost_submit_hdr_ext)
    (hsync : noSubmitInProgress ctx)
    (hv : NVHOST_SUBMIT_VERSION_MAX_SUPPORTED < hdr.submit_version) :
    nvhost_channelctl_submit_ext reallocOk ctx hdr = (-einval, ctx) := by
  obtain ⟨h1, h2, h3, h4⟩ := hsync
  unfold nvhost_channelctl_submit_ext
  rw [if_neg (by simp [h1, h2, h3, h4]), if_pos hv]

/-- Witness for C3 (amended), at the clean context. -/
theorem c3_version_rejected_witness :
    nvhost_channelctl_submit_ext true cleanCtx bigVersionHdr = (-einval, cleanCtx) :=
  c3_version_rejected true cleanCtx bigVersionHdr (by decide) (by decide)

/-- C9: for a flush that passes the guard (job present, counters zero)
and pins successfully: if the device-submission collaborator fails, the
pinned resources are unpinned and the collaborator's error is returned;
if it succeeds, the syncpoint-end it recorded in the job is returned to
the caller as the completion value. -/
theorem c9_flush_submit_outcome (env : FlushEnv) (ctx : nvhost_channel_userctx)
    (j : nvhost_job) (nk : Bool)
    (hjob : ctx.job = some j)
    (hr : ctx.hdr.num_relocs = 0) (hc : ctx.hdr.num_cmdbufs = 0)
    (hw : ctx.hdr.num_waitchks = 0) (hpin : env.pin_err = 0) :
    (env.submit_err ≠ 0 →
       (nvhost_ioctl_channel_flush env ctx nk).err = env.submit_err ∧
       (nvhost_ioctl_channel_flush env ctx nk).submit_called = true ∧
       (nvhost_ioctl_channel_flush env ctx nk).unpin_called = true) ∧
    (env.submit_err = 0 →
       (nvhost_ioctl_channel_flush env ctx nk).err = 0 ∧
       (nvhost_ioctl_channel_flush env ctx nk).submit_called = true ∧
       (nvhost_ioctl_channel_flush env ctx nk).unpin_called = false ∧
       ∃ j2 : nvhost_job,
         (nvhost_ioctl_channel_flush env ctx nk).ctx.job = some j2 ∧
         j2.syncpt_end = env.submit_syncpt_end ∧
         (nvhost_ioctl_channel_flush env ctx nk).value = some j2.syncpt_end) := by
  have hguard : ¬(ctx.job.isNone = true ∨ ctx.hdr.num_relocs ≠ 0 ∨
      ctx.hdr.num_cmdbufs ≠ 0 ∨ ctx.hdr.num_waitchks ≠ 0) := by
    simp [hjob, hr, hc, hw]
  constructor
  · intro hs
    unfold nvhost_ioctl_channel_flush
    rw [if_neg hguard, hjob]
    simp [hpin, hs]
  · intro hs
    unfold nvhost_ioctl_channel_flush
    rw [if_neg hguard, hjob]
    simp [hpin, hs]

/-- Witness for C9, at the clean context with a succeeding environment:
the flush succeeds and returns the recorded syncpoint-end. -/
theorem c9_flush_submit_outcome_witness :
    (nvhost_ioctl_channel_flush okFlushEnv cleanCtx false).err = 0 ∧
    (nvhost_ioctl_channel_flush okFlushEnv cleanCtx false).submit_called = true ∧
    (nvhost_ioctl_channel_flush okFlushEnv cleanCtx false).unpin_called = false ∧
    ∃ j2 : nvhost_job,
      (nvhost_ioctl_channel_flush okFlushEnv cleanCtx false).ctx.job = some j2 ∧
      j2.syncpt_end = okFlushEnv.submit_syncpt_end ∧
      (nvhost_ioctl_channel_flush okFlushEnv cleanCtx false).value = some j2.syncpt_end :=
  (c9_flush_submit_outcome okFlushEnv cleanCtx sampleJob false rfl rfl rfl rfl rfl).2 rfl

/-- When fewer bytes remain than one whole record of the kind the loop's
branch chain currently expects, the loop stops without consuming and
without error. -/
theorem writeLoop_stall (env : WriteEnv) (count fuel : Nat)
    (ctx : nvhost_channel_userctx) (remaining : Nat)
    (h : remaining < recordSize (selectKind ctx.hdr ctx.num_relocshifts)) :
    writeLoop env count fuel ctx remaining = (ctx, remaining, 0) := by
  cases fuel with
  | zero => rfl
  | succ fuel =>
    by_cases hr : remaining = 0
    · conv_lhs => rw [writeLoop]
      rw [if_pos hr]
    · conv_lhs => rw [writeLoop]
      rw [if_neg hr]
      cases hk : selectKind ctx.hdr ctx.num_relocshifts with
      | header =>
        rw [hk] at h
        simp only [recordSize] at h
        dsimp only
        rw [if_pos h]
      | cmdbuf =>
        rw [hk] at h
        simp only [recordSize] at h
        dsimp only
        rw [if_pos h]
      | reloc =>
        rw [hk] at h
        simp only [recordSize] at h
        dsimp only
        rw [if_pos h]
      | waitchk =>
        rw [hk] at h
        simp only [recordSize] at h
        dsimp only
        rw [if_pos (Nat.div_eq_of_lt h)]
      | relocShift =>
        rw [hk] at h
        simp only [recordSize] at h
        dsimp only
        rw [if_pos h]
      | stuck =>
        rw [hk] at h
        simp only [recordSize] at h
        omega

/-- C5: if fewer bytes remain in the caller's buffer than one whole
record of the currently expected kind, the streaming loop consumes none
of them and stops without error, from any reachable loop state; at the
call level the write then returns the bytes consumed so far
(`count - remaining`, here `0` for a call that is short from the start)
without error, and the channel state is untouched. -/
theorem c5_partial_record_never_consumed :
    (∀ (env : WriteEnv) (count fuel : Nat) (ctx : nvhost_channel_userctx)
       (remaining : Nat),
       remaining < recordSize (selectKind ctx.hdr ctx.num_relocshifts) →
       writeLoop env count fuel ctx remaining = (ctx, remaining, 0)) ∧
    (∀ (env : WriteEnv) (count : Nat) (ctx : nvhost_channel_userctx)
       (j : nvhost_job),
       ctx.job = some j →
       count < recordSize (selectKind ctx.hdr ctx.num_relocshifts) →
       nvhost_channelwrite env count ctx = (0, ctx)) := by
  constructor
  · exact writeLoop_stall
  · intro env count ctx j hj h
    unfold nvhost_channelwrite
    rw [hj]
    rw [writeLoop_stall env count count ctx count h]
    norm_num

/-- Witness for C5: in the cmdbuf phase with 5 bytes remaining (< 12,
one cmdbuf record), nothing is consumed and no error is returned. -/
theorem c5_partial_record_never_consumed_witness :
    writeLoop okWriteEnv 5 5 dirtyCtx 5 = (dirtyCtx, 5, 0) ∧
    nvhost_channelwrite okWriteEnv 5 dirtyCtx = (0, dirtyCtx) :=
  ⟨c5_partial_record_never_consumed.1 okWriteEnv 5 5 dirtyCtx 5 (by decide),
   c5_partial_record_never_consumed.2 okWriteEnv 5 dirtyCtx sampleJob rfl (by decide)⟩

/-- C6: a write arriving in the waitchk phase with `w` waitchk records
remaining and `remaining` bytes supplied consumes, in one batch,
exactly `n = min (remaining / record-size) w` whole records: the job's
waitchk sequence grows by `n` (the batch read yields exactly `n`
records), the remaining waitchk counter decreases by `n`, and the batch
consumes `n * record-size` bytes, leaving a trailing partial record
unconsumed. -/
theorem c6_waitchk_batch (env : WriteEnv) (count fuel : Nat)
    (ctx : nvhost_channel_userctx) (j : nvhost_job) (remaining n : Nat)
    (ws : List nvhost_waitchk)
    (hn : n = min (remaining / sizeof_nvhost_waitchk) ctx.hdr.num_waitchks)
    (hjob : ctx.job = some j)
    (hc : ctx.hdr.num_cmdbufs = 0) (hr : ctx.hdr.num_relocs = 0)
    (hw0 : ctx.hdr.num_waitchks ≠ 0)
    (hrem : sizeof_nvhost_waitchk ≤ remaining)
    (hread : readWaitchks env (count - remaining) n = some ws) :
    ws.length = n ∧
    writeLoop env count (fuel + 1) ctx remaining =
      writeLoop env count fuel
        { ctx with
            hdr := { ctx.hdr with num_waitchks := ctx.hdr.num_waitchks - n }
            job := some { j with
              waitchk := j.waitchk ++ ws
              num_waitchk := j.num_waitchk + n } }
        (remaining - n * sizeof_nvhost_waitchk) := by
  subst hn
  refine ⟨readWaitchks_length env _ _ ws hread, ?_⟩
  have hsz : sizeof_nvhost_waitchk = 16 := rfl
  have hk : selectKind ctx.hdr ctx.num_relocshifts = RecKind.waitchk := by
    unfold selectKind
    rw [if_neg (by simp [hw0]), if_neg (by simp [hc]), if_neg (by simp [hr]),
        if_pos hw0]
  have hn : ¬(remaining / sizeof_nvhost_waitchk = 0) := by
    rw [hsz] at hrem ⊢
    omega
  conv_lhs => rw [writeLoop]
  rw [if_neg (by omega), hk]
  dsimp only
  rw [if_neg hn, hread, hjob]

/-- A channel context in the waitchk phase: five waitchk records
declared and remaining. -/
def waitchkCtx : nvhost_channel_userctx :=
  { cleanCtx with hdr := { cleanCtx.hdr with num_waitchks := 5 } }

/-- The waitchk record `okWriteEnv` supplies. -/
def wrec : nvhost_waitchk := { syncpt_id := 9, thresh := 10 }

/-- Witness for C6: 56 bytes (3.5 records) supplied while 5 are
declared: exactly 3 whole records are consumed, the counter drops
5 → 2, and 3 × 16 bytes are consumed. -/
theorem c6_waitchk_batch_witness :
    ([wrec, wrec, wrec] : List nvhost_waitchk).length = 3 ∧
    writeLoop okWriteEnv 56 1 waitchkCtx 56 =
      writeLoop okWriteEnv 56 0
        { waitchkCtx with
            hdr := { waitchkCtx.hdr with
              num_waitchks := waitchkCtx.hdr.num_waitchks - 3 }
            job := some { sampleJob with
              waitchk := sampleJob.waitchk ++ [wrec, wrec, wrec]
              num_waitchk := sampleJob.num_waitchk + 3 } }
        (56 - 3 * sizeof_nvhost_waitchk) :=
  c6_waitchk_batch okWriteEnv 56 0 waitchkCtx sampleJob 56 3 [wrec, wrec, wrec]
    (by decide) rfl rfl rfl (by decide) (by decide) (by rfl)

/-- C8: (a) an accepted header (successful `set_submit`) with
submit-version ≥ v2 sets the remaining reloc-shift counter equal to the
header's declared relocation count, and it stays zero for versions below
v2 (in particular v0); (b) each reloc-shift record consumed stores its
shift into the pin at index `(current pin count) - (remaining
reloc-shift count)` and then decrements the reloc-shift counter by
one. -/
theorem c8_relocshift_seed_and_store :
    (∀ (reallocOk : Bool) (ctx : nvhost_channel_userctx),
       ctx.num_relocshifts = 0 →
       (set_submit reallocOk ctx).1 = 0 →
       (NVHOST_SUBMIT_VERSION_V2 ≤ ctx.hdr.submit_version →
          (set_submit reallocOk ctx).2.num_relocshifts = ctx.hdr.num_relocs) ∧
       (ctx.hdr.submit_version < NVHOST_SUBMIT_VERSION_V2 →
          (set_submit reallocOk ctx).2.num_relocshifts = 0)) ∧
    (∀ (env : WriteEnv) (count fuel : Nat) (ctx : nvhost_channel_userctx)
       (j : nvhost_job) (remaining v : Nat),
       ctx.job = some j →
       ctx.hdr.num_cmdbufs = 0 → ctx.hdr.num_relocs = 0 →
       ctx.hdr.num_waitchks = 0 → ctx.num_relocshifts ≠ 0 →
       sizeof_nvhost_reloc_shift ≤ remaining →
       env.shiftAt (count - remaining) = some v →
       writeLoop env count (fuel + 1) ctx remaining =
         writeLoop env count fuel
           { ctx with
               num_relocshifts := ctx.num_relocshifts - 1
               job := some { j with
                 pinarray := Function.update j.pinarray
                   (j.num_pins - ctx.num_relocshifts)
                   { j.pinarray (j.num_pins - ctx.num_relocshifts) with
                       reloc_shift := v } } }
           (remaining - sizeof_nvhost_reloc_shift)) := by
  constructor
  · intro reallocOk ctx hns hsucc
    by_cases h1 : ctx.hdr.num_cmdbufs = 0
    · exfalso
      unfold set_submit at hsucc
      rw [if_pos h1] at hsucc
      simp [eio] at hsucc
    by_cases h2 : ctx.nvmap = false
    · exfalso
      unfold set_submit at hsucc
      rw [if_neg h1, if_pos h2] at hsucc
      simp [efault] at hsucc
    by_cases h3 : reallocOk = false
    · exfalso
      unfold set_submit at hsucc
      rw [if_neg h1, if_neg h2, if_pos h3] at hsucc
      simp [enomem] at hsucc
    constructor
    · intro hv
      unfold set_submit
      rw [if_neg h1, if_neg h2, if_neg h3]
      dsimp only
      rw [if_pos hv]
    · intro hv
      unfold set_submit
      rw [if_neg h1, if_neg h2, if_neg h3]
      dsimp only
      rw [if_neg (by omega)]
      exact hns
  · intro env count fuel ctx j remaining v hjob hc hr hw hks hrem hread
    have hsz : sizeof_nvhost_reloc_shift = 4 := rfl
    have hk : selectKind ctx.hdr ctx.num_relocshifts = RecKind.relocShift := by
      unfold selectKind
      rw [if_neg (by simp [hks]), if_neg (by simp [hc]), if_neg (by simp [hr]),
          if_neg (by simp [hw]), if_pos hks]
    conv_lhs => rw [writeLoop]
    rw [if_neg (by omega), hk]
    dsimp only
    rw [if_neg (by omega), hread, hjob]

/-- The read of the record the loop's branch chain currently expects
faults (`copy_from_user` returns nonzero). -/
def copyFaults (env : WriteEnv) (count : Nat) (ctx : nvhost_channel_userctx)
    (remaining : Nat) : Prop :=
  match selectKind ctx.hdr ctx.num_relocshifts with
  | RecKind.header => env.hdrAt (count - remaining) = none
  | RecKind.cmdbuf => env.cmdbufAt (count - remaining) = none
  | RecKind.reloc => env.relocAt (count - remaining) = none
  | RecKind.waitchk =>
      readWaitchks env (count - remaining)
        (min (remaining / sizeof_nvhost_waitchk) ctx.hdr.num_waitchks) = none
  | RecKind.relocShift => env.shiftAt (count - remaining) = none
  | RecKind.stuck => False

/-- The loop never increases `remaining`: what it reports unconsumed is
at most what it was given. -/
theorem writeLoop_remaining_le (env : WriteEnv) (count : Nat) :
    ∀ (fuel : Nat) (ctx : nvhost_channel_userctx) (remaining : Nat),
      (writeLoop env count fuel ctx remaining).2.1 ≤ remaining := by
  intro fuel
  induction fuel with
  | zero => intro ctx remaining; exact le_refl _
  | succ fuel ih =>
    intro ctx remaining
    rw [writeLoop]
    by_cases hr : remaining = 0
    · rw [if_pos hr]
    · rw [if_neg hr]
      cases hk : selectKind ctx.hdr ctx.num_relocshifts <;> dsimp only <;>
        repeat' split
      all_goals try exact le_trans (ih _ _) (Nat.sub_le _ _)
      all_goals simp

/-- C7: (a) when the read of the currently expected record faults while a
whole record's bytes are available, the loop stops at once with
`-EFAULT` and an unchanged state; (b) whenever a write call on a channel
with a job returns an error, `reset_submit` has run: all four remaining
counters are zero afterwards ("no submission in progress"). -/
theorem c7_copy_fault_resets :
    (∀ (env : WriteEnv) (count fuel : Nat) (ctx : nvhost_channel_userctx)
       (remaining : Nat),
       copyFaults env count ctx remaining →
       recordSize (selectKind ctx.hdr ctx.num_relocshifts) ≤ remaining →
       writeLoop env count (fuel + 1) ctx remaining = (ctx, remaining, -efault)) ∧
    (∀ (env : WriteEnv) (count : Nat) (ctx : nvhost_channel_userctx)
       (j : nvhost_job),
       ctx.job = some j →
       (nvhost_channelwrite env count ctx).1 < 0 →
       noSubmitInProgress (nvhost_channelwrite env count ctx).2) := by
  constructor
  · intro env count fuel ctx remaining hf hsz
    unfold copyFaults at hf
    cases hk : selectKind ctx.hdr ctx.num_relocshifts <;>
      rw [hk] at hf hsz <;> simp only [recordSize] at hsz <;>
      dsimp only at hf
    case header =>
      have h24 : sizeof_nvhost_submit_hdr = 24 := rfl
      conv_lhs => rw [writeLoop]
      rw [if_neg (by omega), hk]
      dsimp only
      rw [if_neg (not_lt.mpr hsz), hf]
    case cmdbuf =>
      have h12 : sizeof_nvhost_cmdbuf = 12 := rfl
      conv_lhs => rw [writeLoop]
      rw [if_neg (by omega), hk]
      dsimp only
      rw [if_neg (not_lt.mpr hsz), hf]
    case reloc =>
      have h16 : sizeof_nvhost_reloc = 16 := rfl
      conv_lhs => rw [writeLoop]
      rw [if_neg (by omega), hk]
      dsimp only
      rw [if_neg (not_lt.mpr hsz), hf]
    case waitchk =>
      have h16 : sizeof_nvhost_waitchk = 16 := rfl
      conv_lhs => rw [writeLoop]
      rw [if_neg (by omega), hk]
      dsimp only
      rw [if_neg (by rw [h16] at hsz ⊢; omega), hf]
    case relocShift =>
      have h4 : sizeof_nvhost_reloc_shift = 4 := rfl
      conv_lhs => rw [writeLoop]
      rw [if_neg (by omega), hk]
      dsimp only
      rw [if_neg (not_lt.mpr hsz), hf]
  · intro env count ctx j hjob hneg
    unfold nvhost_channelwrite at hneg ⊢
    rw [hjob] at hneg ⊢
    rcases hres : writeLoop env count count ctx count with ⟨ctx1, remaining1, e⟩
    dsimp only at hneg ⊢
    by_cases he : e < 0
    · rw [if_pos he]
      exact reset_submit_clears ctx1
    · exfalso
      rw [hres] at hneg
      dsimp only at hneg
      rw [if_neg he] at hneg
      dsimp only at hneg
      have hle := writeLoop_remaining_le env count count ctx count
      rw [hres] at hle
      dsimp only at hle
      omega

/-- Witness for C7: in the cmdbuf phase with exactly one record's bytes
available but a faulting source, the loop returns `-EFAULT` without
consuming, and the write call as a whole returns a negative error with
all four counters reset. -/
theorem c7_copy_fault_resets_witness :
    writeLoop faultWriteEnv 12 1 dirtyCtx 12 = (dirtyCtx, 12, -efault) ∧
    (nvhost_channelwrite faultWriteEnv 12 dirtyCtx).1 < 0 ∧
    noSubmitInProgress (nvhost_channelwrite faultWriteEnv 12 dirtyCtx).2 :=
  ⟨c7_copy_fault_resets.1 faultWriteEnv 12 0 dirtyCtx 12 rfl (by decide),
   by decide,
   c7_copy_fault_resets.2 faultWriteEnv 12 dirtyCtx sampleJob rfl (by decide)⟩

/-- A clean context holding an accepted v2 header declaring one cmdbuf
and two relocs. -/
def v2Ctx : nvhost_channel_userctx :=
  { cleanCtx with hdr := { cleanCtx.hdr with
      submit_version := 2, num_cmdbufs := 1, num_relocs := 2 } }

/-- A job with one pin already appended. -/
def pinnedJob : nvhost_job := { sampleJob with num_pins := 1 }

/-- A context in the reloc-shift phase: one shift remaining, one pin
appended. -/
def shiftPinCtx : nvhost_channel_userctx :=
  { cleanCtx with num_relocshifts := 1, job := some pinnedJob }

/-- Witness for C8: accepting the v2 header seeds the reloc-shift
counter with the declared reloc count (2), and consuming one reloc-shift
record stores the shift at pin index `num_pins - num_relocshifts =
1 - 1 = 0` and decrements the counter. -/
theorem c8_relocshift_seed_and_store_witness :
    (set_submit true v2Ctx).2.num_relocshifts = v2Ctx.hdr.num_relocs ∧
    writeLoop okWriteEnv 4 1 shiftPinCtx 4 =
      writeLoop okWriteEnv 4 0
        { shiftPinCtx with
            num_relocshifts := shiftPinCtx.num_relocshifts - 1
            job := some { pinnedJob with
              pinarray := Function.update pinnedJob.pinarray
                (pinnedJob.num_pins - shiftPinCtx.num_relocshifts)
                { pinnedJob.pinarray
                    (pinnedJob.num_pins - shiftPinCtx.num_relocshifts) with
                    reloc_shift := 11 } } }
        (4 - sizeof_nvhost_reloc_shift) :=
  ⟨(c8_relocshift_seed_and_store.1 true v2Ctx rfl rfl).1 (by decide),
   c8_relocshift_seed_and_store.2 okWriteEnv 4 0 shiftPinCtx pinnedJob 4 11
     rfl rfl rfl rfl (by decide) (by decide) rfl⟩

/-- A context with no nvmap client set (and no submission in
progress). -/
def noNvmapCtx : nvhost_channel_userctx := { cleanCtx with nvmap := false }

/-- A supported-version header declaring one cmdbuf. -/
def v0OneCmdbufHdr : nvhost_submit_hdr_ext := { cleanCtx.hdr with num_cmdbufs := 1 }

/-- C10 counterexample: an extended submit on a channel without an nvmap
client returns an error (`-EFAULT`) — but the new header's declared
counts have already been installed and are left in place, so the channel
is afterwards in a "submission in progress" state: a new submission
phase has begun despite the error. -/
theorem c10_acceptance_counterexample :
    (nvhost_channelctl_submit_ext true noNvmapCtx v0OneCmdbufHdr).1 = -efault ∧
    (nvhost_channelctl_submit_ext true noNvmapCtx v0OneCmdbufHdr).2.hdr.num_cmdbufs = 1 ∧
    ¬noSubmitInProgress (nvhost_channelctl_submit_ext true noNvmapCtx v0OneCmdbufHdr).2 :=
  ⟨by decide, by decide, by decide⟩

/-- C10 (amended): header acceptance additionally requires at least one
declared cmdbuf (`-EIO` otherwise) and a previously set nvmap client
(`-EFAULT` otherwise); on failure `set_submit` returns the error with
the state it was given unchanged — no job is reallocated and the
reloc-shift counter is not seeded — but on the extended-submit path the
new header's counts were stored before the check and remain installed
after the failure, so the assembler treats a submission as in
progress. -/
theorem c10_acceptance_requirements :
    (∀ (reallocOk : Bool) (ctx : nvhost_channel_userctx),
       ctx.hdr.num_cmdbufs = 0 →
       set_submit reallocOk ctx = (-eio, ctx)) ∧
    (∀ (reallocOk : Bool) (ctx : nvhost_channel_userctx),
       ctx.hdr.num_cmdbufs ≠ 0 → ctx.nvmap = false →
       set_submit reallocOk ctx = (-efault, ctx)) ∧
    (∀ (reallocOk : Bool) (ctx : nvhost_channel_userctx)
       (hdr : nvhost_submit_hdr_ext),
       noSubmitInProgress ctx →
       hdr.submit_version ≤ NVHOST_SUBMIT_VERSION_MAX_SUPPORTED →
       hdr.num_cmdbufs ≠ 0 → ctx.nvmap = false →
       nvhost_channelctl_submit_ext reallocOk ctx hdr =
         (-efault, { ctx with hdr := hdr })) := by
  refine ⟨?_, ?_, ?_⟩
  · intro reallocOk ctx h
    unfold set_submit
    rw [if_pos h]
  · intro reallocOk ctx h hn
    unfold set_submit
    rw [if_neg h, if_pos hn]
  · intro reallocOk ctx hdr hsync hv hcb hnm
    obtain ⟨h1, h2, h3, h4⟩ := hsync
    unfold nvhost_channelctl_submit_ext
    rw [if_neg (by simp [h1, h2, h3, h4]), if_neg (by omega)]
    unfold set_submit
    dsimp only
    rw [if_neg hcb, if_pos hnm]

/-- Witness for C10 (amended): a header with zero cmdbufs is rejected
with `-EIO` leaving the state unchanged, and an extended submit without
an nvmap client is rejected with `-EFAULT` with the new counts left
installed. -/
theorem c10_acceptance_requirements_witness :
    set_submit true cleanCtx = (-eio, cleanCtx) ∧
    nvhost_channelctl_submit_ext true noNvmapCtx v0OneCmdbufHdr =
      (-efault, { noNvmapCtx with hdr := v0OneCmdbufHdr }) :=
  ⟨c10_acceptance_requirements.1 true cleanCtx rfl,
   c10_acceptance_requirements.2.2 true noNvmapCtx v0OneCmdbufHdr
     (by decide) (by decide) (by decide) rfl⟩
